import Mathlib

/-!
Verification of the relay_v2 example (src/protocols/relay/examples/relay_v2.rs)
against its natural-language specification.

The file shallowly embeds the Rust source: bytes are `Fin 256`, ports are
`Fin 65536`, fallible Rust calls become `Except`/`Option`, and a Rust
`expect`-panic is an explicit error outcome. External libp2p components
(the crypto key derivation, the multiaddr parser, the swarm) appear as
parameters or as definitions whose doc comment says `Modelled from the spec:`.
-/

/-- One byte, as stored in the `[u8; 32]` seed array of `generate_ed25519`. -/
abbrev Byte := Fin 256

/-- An ed25519 secret key as libp2p-identity holds it: exactly its 32 raw
bytes. `SecretKey::from_bytes` checks only the length. -/
structure SecretKey where
  bytes : List Byte
deriving DecidableEq, Repr

/-- Modelled from the spec: `identity::ed25519::SecretKey::from_bytes` is an
external collaborator ("cryptographic identity generation" is out of scope);
per the source's own comment at relay_v2.rs line 155 it "returns `Err` only
if the length is wrong". -/
def SecretKey.from_bytes (bs : List Byte) : Except String SecretKey :=
  if bs.length = 32 then Except.ok ⟨bs⟩ else Except.error "invalid length"

/-- The keypair as the example builds it: `identity::Keypair::Ed25519(secret_key.into())`
(relay_v2.rs line 156). An ed25519 keypair is a deterministic function of its
secret key (the public half is derived), so the secret key is the whole data. -/
inductive Keypair where
  | Ed25519 : SecretKey → Keypair
deriving DecidableEq, Repr

/-- Modelled from the spec: the public key, an external deterministic
derivation from the keypair ("generation is external", spec section 3). -/
structure PublicKey where
  ofSecret : SecretKey
deriving DecidableEq, Repr

/-- Public half of the keypair, `local_key.public()` at relay_v2.rs line 48. -/
def Keypair.publicKey : Keypair → PublicKey
  | .Ed25519 sk => ⟨sk⟩

/-- Modelled from the spec: a PeerIdentity is "an opaque, cryptographically
verifiable identifier … derived once from a local/private key material"
(spec section 3); `PeerId::from(public)` at relay_v2.rs line 48. -/
structure PeerId where
  ofPublic : PublicKey
deriving DecidableEq, Repr

/-- Conversion `PeerId::from(PublicKey)`. -/
def PeerId.fromPublicKey (pk : PublicKey) : PeerId := ⟨pk⟩

/-- The seed byte array of `generate_ed25519` (relay_v2.rs lines 151-152):
`let mut bytes = [0u8; 32]; bytes[0] = secret_key_seed;`. -/
def seedBytes (secret_key_seed : Byte) : List Byte :=
  (List.replicate 32 (0 : Byte)).set 0 secret_key_seed

/-- `generate_ed25519` (relay_v2.rs lines 150-157). The `expect` on the
`from_bytes` result is embedded as the `Except.error` outcome (a panic). -/
def generate_ed25519 (secret_key_seed : Byte) : Except String Keypair :=
  let bytes := seedBytes secret_key_seed
  match SecretKey.from_bytes bytes with
  | Except.ok secret_key => Except.ok (Keypair.Ed25519 secret_key)
  | Except.error _ =>
      Except.error "this returns Err only if the length is wrong; the length is correct; qed"

/-- Startup identity of `main` (relay_v2.rs lines 47-49): the keypair from the
seed and the PeerId printed by `println!("Local peer id: ...")`; `none` is the
unreachable panic of `generate_ed25519`. -/
def mainStartupLog (secret_key_seed : Byte) : Option (Keypair × PeerId) :=
  match generate_ed25519 secret_key_seed with
  | Except.ok local_key => some (local_key, PeerId.fromPublicKey local_key.publicKey)
  | Except.error _ => none

theorem seedBytes_eq (s : Byte) : seedBytes s = s :: List.replicate 31 (0 : Byte) := rfl

/-- C1: for every seed byte s, `generate_ed25519` derives the ed25519 secret
key from exactly the 32-byte array whose byte 0 is s and whose remaining 31
bytes are zero, and returns the Ed25519 keypair built from that secret key. -/
theorem generate_ed25519_uses_seed_byte_then_zeros (s : Byte) :
    generate_ed25519 s = Except.ok (Keypair.Ed25519 ⟨s :: List.replicate 31 (0 : Byte)⟩) ∧
    (s :: List.replicate 31 (0 : Byte)).length = 32 ∧
    (s :: List.replicate 31 (0 : Byte)).head? = some s ∧
    (s :: List.replicate 31 (0 : Byte)).tail = List.replicate 31 (0 : Byte) :=
  ⟨rfl, rfl, rfl, rfl⟩

/-- C7: identity generation is deterministic: two runs on the same seed
produce equal keypairs and the same logged local peer identity. -/
theorem generate_ed25519_deterministic (s₁ s₂ : Byte) (h : s₁ = s₂) :
    generate_ed25519 s₁ = generate_ed25519 s₂ ∧ mainStartupLog s₁ = mainStartupLog s₂ :=
  ⟨h ▸ rfl, h ▸ rfl⟩

/-- Witness for C7 at the concrete seed 42. -/
theorem generate_ed25519_deterministic_witness :
    generate_ed25519 42 = generate_ed25519 42 ∧ mainStartupLog 42 = mainStartupLog 42 :=
  generate_ed25519_deterministic 42 42 rfl

/-- C10: `generate_ed25519` is total: for every seed byte the supplied array
has length exactly 32, so the `from_bytes` error branch is unreachable and a
keypair is always returned (the embedded panic is never taken). -/
theorem generate_ed25519_total (s : Byte) :
    (seedBytes s).length = 32 ∧
    SecretKey.from_bytes (seedBytes s) = Except.ok ⟨seedBytes s⟩ ∧
    ∃ kp, generate_ed25519 s = Except.ok kp :=
  ⟨rfl, rfl, ⟨Keypair.Ed25519 ⟨seedBytes s⟩, rfl⟩⟩

/-! ## Protocol handler event families and the merged `Event` union -/

/-- Modelled from the spec: an event of the liveness (ping) handler
(`PingEvent`); its contents belong to the external liveness protocol, so the
payload is opaque. -/
structure PingEvent where
  payload : Nat
deriving DecidableEq, Repr

/-- Modelled from the spec: an event of the identification handler
(`IdentifyEvent`); payload opaque. -/
structure IdentifyEvent where
  payload : Nat
deriving DecidableEq, Repr

/-- Modelled from the spec: a relay-server lifecycle event (`relay::Event`:
reservation accepted/denied, circuit established/closed); payload opaque. -/
structure RelayEvent where
  payload : Nat
deriving DecidableEq, Repr

/-- Modelled from the spec: a relay-client event (`client::Event`); payload
opaque. -/
structure ClientEvent where
  payload : Nat
deriving DecidableEq, Repr

/-- The merged behaviour event enum `Event` of relay_v2.rs lines 118-124:
`enum Event { Ping(PingEvent), Identify(IdentifyEvent), Relay(relay::Event),
Client(client::Event) }`. -/
inductive Event where
  | Ping : PingEvent → Event
  | Identify : IdentifyEvent → Event
  | Relay : RelayEvent → Event
  | Client : ClientEvent → Event
deriving DecidableEq, Repr

/-- `impl From<PingEvent> for Event` (relay_v2.rs lines 126-130). -/
def Event.fromPing (e : PingEvent) : Event := Event.Ping e

/-- `impl From<IdentifyEvent> for Event` (relay_v2.rs lines 132-136). -/
def Event.fromIdentify (e : IdentifyEvent) : Event := Event.Identify e

/-- `impl From<relay::Event> for Event` (relay_v2.rs lines 138-142). -/
def Event.fromRelay (e : RelayEvent) : Event := Event.Relay e

/-- `impl From<client::Event> for Event` (relay_v2.rs lines 144-148). -/
def Event.fromClient (e : ClientEvent) : Event := Event.Client e

/-- The tag (variant discriminant) of a merged event. -/
inductive EventTag where
  | ping
  | identify
  | relay
  | client
deriving DecidableEq, Repr

/-- Which variant a merged event lies in. -/
def Event.tag : Event → EventTag
  | .Ping _ => .ping
  | .Identify _ => .identify
  | .Relay _ => .relay
  | .Client _ => .client

/-- C2 counterexample: the merged event type is not a union over only the
three families {Relay, Liveness, Identification}: the concrete event
`Event.Client ⟨0⟩` carries the fourth tag `client`, distinct from all three
claimed tags. -/
theorem event_union_not_three_families :
    (Event.fromClient ⟨0⟩).tag = EventTag.client ∧
    EventTag.client ≠ EventTag.ping ∧
    EventTag.client ≠ EventTag.identify ∧
    EventTag.client ≠ EventTag.relay := by
  decide

/-- C2 (amended): the dispatcher's merged event type is a tagged union over
exactly the four handler event families — Ping, Identify, Relay and relay
Client — with each `From` conversion injective and mapping its family to its
own distinct tag, and every merged event lying in one of the four tags. -/
theorem event_union_four_families :
    (∀ a b : PingEvent, Event.fromPing a = Event.fromPing b → a = b) ∧
    (∀ a b : IdentifyEvent, Event.fromIdentify a = Event.fromIdentify b → a = b) ∧
    (∀ a b : RelayEvent, Event.fromRelay a = Event.fromRelay b → a = b) ∧
    (∀ a b : ClientEvent, Event.fromClient a = Event.fromClient b → a = b) ∧
    (∀ a : PingEvent, (Event.fromPing a).tag = EventTag.ping) ∧
    (∀ a : IdentifyEvent, (Event.fromIdentify a).tag = EventTag.identify) ∧
    (∀ a : RelayEvent, (Event.fromRelay a).tag = EventTag.relay) ∧
    (∀ a : ClientEvent, (Event.fromClient a).tag = EventTag.client) ∧
    (∀ e : Event, e.tag = EventTag.ping ∨ e.tag = EventTag.identify ∨
      e.tag = EventTag.relay ∨ e.tag = EventTag.client) ∧
    (EventTag.ping ≠ EventTag.identify ∧ EventTag.ping ≠ EventTag.relay ∧
      EventTag.ping ≠ EventTag.client ∧ EventTag.identify ≠ EventTag.relay ∧
      EventTag.identify ≠ EventTag.client ∧ EventTag.relay ≠ EventTag.client) := by
  refine ⟨?_, ?_, ?_, ?_, ?_, ?_, ?_, ?_, ?_, ?_⟩
  · intro a b h; injection h
  · intro a b h; injection h
  · intro a b h; injection h
  · intro a b h; injection h
  · intro a; rfl
  · intro a; rfl
  · intro a; rfl
  · intro a; rfl
  · intro e; cases e <;> simp [Event.tag]
  · decide

/-! ## Listen address construction -/

/-- An IPv4 address, four octets; `Ipv4Addr` of the Rust standard library. -/
structure Ipv4Addr where
  octets : List Byte
deriving DecidableEq, Repr

/-- `Ipv4Addr::UNSPECIFIED`, 0.0.0.0. -/
def Ipv4Addr.UNSPECIFIED : Ipv4Addr := ⟨List.replicate 4 0⟩

/-- An IPv6 address, eight 16-bit segments; `Ipv6Addr` of the Rust standard
library. -/
structure Ipv6Addr where
  segments : List (Fin 65536)
deriving DecidableEq, Repr

/-- `Ipv6Addr::UNSPECIFIED`, `::`. -/
def Ipv6Addr.UNSPECIFIED : Ipv6Addr := ⟨List.replicate 8 0⟩

/-- A multiaddr protocol component (`multiaddr::Protocol`), restricted to the
components the example constructs. -/
inductive Protocol where
  | Ip4 : Ipv4Addr → Protocol
  | Ip6 : Ipv6Addr → Protocol
  | Tcp : Fin 65536 → Protocol
deriving DecidableEq, Repr

/-- A multiaddr: a sequence of protocol components. -/
abbrev Multiaddr := List Protocol

/-- `Multiaddr::empty()`. -/
def Multiaddr.empty : Multiaddr := []

/-- `Multiaddr::with`, appending one protocol component. -/
def Multiaddr.withProtocol (m : Multiaddr) (p : Protocol) : Multiaddr := m ++ [p]

/-- The listen address of `main` (relay_v2.rs lines 81-86): the unspecified
IPv6 address when `use_ipv6` is `Some(true)`, the unspecified IPv4 address in
every other case, followed by the TCP port from the `port` option. -/
def listen_addr (use_ipv6 : Option Bool) (port : Fin 65536) : Multiaddr :=
  (Multiaddr.empty.withProtocol
    (match use_ipv6 with
      | some true => Protocol.Ip6 Ipv6Addr.UNSPECIFIED
      | _ => Protocol.Ip4 Ipv4Addr.UNSPECIFIED)).withProtocol (Protocol.Tcp port)

/-- C6: the listen address is the IPv6 unspecified address exactly when the
use-ipv6 flag is given as true, and the IPv4 unspecified address when the
flag is absent or given as false, in both cases with the TCP port from the
port option. -/
theorem listen_addr_cases (port : Fin 65536) :
    listen_addr (some true) port =
      [Protocol.Ip6 Ipv6Addr.UNSPECIFIED, Protocol.Tcp port] ∧
    listen_addr (some false) port =
      [Protocol.Ip4 Ipv4Addr.UNSPECIFIED, Protocol.Tcp port] ∧
    listen_addr none port =
      [Protocol.Ip4 Ipv4Addr.UNSPECIFIED, Protocol.Tcp port] :=
  ⟨rfl, rfl, rfl⟩

/-! ## The event loop's dispatch and main's control flow -/

/-- Modelled from the spec: the swarm-level events of the Behavior Dispatcher
(`SwarmEvent`). `Behaviour` wraps the merged behaviour event; `NewListenAddr`
reports a discovered listen address; the remaining constructors stand for the
other swarm event classes (connection, listener and dialing events), which
the example only logs. -/
inductive SwarmEvent where
  | Behaviour : Event → SwarmEvent
  | NewListenAddr : Multiaddr → SwarmEvent
  | ConnectionEstablished : PeerId → SwarmEvent
  | ConnectionClosed : PeerId → SwarmEvent
  | IncomingConnection : Multiaddr → SwarmEvent
  | OutgoingConnectionError : Multiaddr → SwarmEvent
  | Dialing : PeerId → SwarmEvent
  | ExpiredListenAddr : Multiaddr → SwarmEvent
  | ListenerError : Nat → SwarmEvent
deriving DecidableEq, Repr

/-- The observable logging action one iteration of the event loop performs. -/
inductive LogAction where
  | printRelayEvent : RelayEvent → LogAction
  | printListenAddr : Multiaddr → LogAction
  | logInfo : SwarmEvent → LogAction
deriving DecidableEq, Repr

/-- The match of the event loop body (relay_v2.rs lines 96-104): a dedicated
`println!` branch for `Event::Relay`, a `println!("Listening on ...")` branch
for `NewListenAddr`, and a catch-all `log::info!` for every other event. -/
def handleSwarmEvent : SwarmEvent → LogAction
  | SwarmEvent.Behaviour (Event.Relay event) => LogAction.printRelayEvent event
  | SwarmEvent.NewListenAddr address => LogAction.printListenAddr address
  | e => LogAction.logInfo e

/-- C3: the operator-facing output logs the local identity at startup, prints
every newly discovered listen address, prints every relay event via its own
dedicated branch (distinct from the generic log), and emits a best-effort log
line for every other event — no event class is dropped silently. -/
theorem event_loop_logs_every_event_class :
    (∀ s : Byte, ∃ kp pid, mainStartupLog s = some (kp, pid)) ∧
    (∀ a : Multiaddr, handleSwarmEvent (SwarmEvent.NewListenAddr a) =
      LogAction.printListenAddr a) ∧
    (∀ re : RelayEvent, handleSwarmEvent (SwarmEvent.Behaviour (Event.Relay re)) =
      LogAction.printRelayEvent re) ∧
    (∀ e : SwarmEvent, (∀ re, e ≠ SwarmEvent.Behaviour (Event.Relay re)) →
      (∀ a, e ≠ SwarmEvent.NewListenAddr a) → handleSwarmEvent e = LogAction.logInfo e) ∧
    (∀ re e, LogAction.printRelayEvent re ≠ LogAction.logInfo e) ∧
    (∀ e : SwarmEvent, (∃ re, handleSwarmEvent e = LogAction.printRelayEvent re) ∨
      (∃ a, handleSwarmEvent e = LogAction.printListenAddr a) ∨
      handleSwarmEvent e = LogAction.logInfo e) := by
  refine ⟨?_, ?_, ?_, ?_, ?_, ?_⟩
  · intro s
    exact ⟨Keypair.Ed25519 ⟨seedBytes s⟩,
      PeerId.fromPublicKey (Keypair.Ed25519 ⟨seedBytes s⟩).publicKey, rfl⟩
  · intro a; rfl
  · intro re; rfl
  · intro e hrelay haddr
    cases e with
    | Behaviour ev =>
        cases ev with
        | Relay re => exact absurd rfl (hrelay re)
        | Ping p => rfl
        | Identify i => rfl
        | Client c => rfl
    | NewListenAddr a => exact absurd rfl (haddr a)
    | ConnectionEstablished p => rfl
    | ConnectionClosed p => rfl
    | IncomingConnection a => rfl
    | OutgoingConnectionError a => rfl
    | Dialing p => rfl
    | ExpiredListenAddr a => rfl
    | ListenerError n => rfl
  · intro re e h; exact LogAction.noConfusion h
  · intro e
    cases e with
    | Behaviour ev =>
        cases ev with
        | Relay re => exact Or.inl ⟨re, rfl⟩
        | Ping p => exact Or.inr (Or.inr rfl)
        | Identify i => exact Or.inr (Or.inr rfl)
        | Client c => exact Or.inr (Or.inr rfl)
    | NewListenAddr a => exact Or.inr (Or.inl ⟨a, rfl⟩)
    | ConnectionEstablished p => exact Or.inr (Or.inr rfl)
    | ConnectionClosed p => exact Or.inr (Or.inr rfl)
    | IncomingConnection a => exact Or.inr (Or.inr rfl)
    | OutgoingConnectionError a => exact Or.inr (Or.inr rfl)
    | Dialing p => exact Or.inr (Or.inr rfl)
    | ExpiredListenAddr a => exact Or.inr (Or.inr rfl)
    | ListenerError n => exact Or.inr (Or.inr rfl)

/-- How `main` leaves its startup phase: an error return (the `?` operator),
a panic (an `expect` call), or falling through into the event loop. -/
inductive SetupOutcome where
  | errReturn : String → SetupOutcome
  | panicked : String → SetupOutcome
  | entersEventLoop : SetupOutcome
deriving DecidableEq, Repr

/-- The startup dial loop of `main` (relay_v2.rs lines 89-92): each address is
parsed with `expect("peer address to be valid")` and dialed with
`expect("to dial peer")`; either `expect` panics the process. The external
parser and dialer are passed in as functions. -/
def dialLoop (parseAddr : String → Option Multiaddr)
    (dialPeer : Multiaddr → Except String Unit) : List String → SetupOutcome
  | [] => SetupOutcome.entersEventLoop
  | addr :: rest =>
    match parseAddr addr with
    | none => SetupOutcome.panicked "peer address to be valid"
    | some peer =>
      match dialPeer peer with
      | Except.error _ => SetupOutcome.panicked "to dial peer"
      | Except.ok _ => dialLoop parseAddr dialPeer rest

/-- Results of the external calls `main` makes before the event loop: the
noise keypair signing (line 53-55, `expect`), the DNS transport construction
(line 58, `?`), the `listen_on` call (line 87, `?`), and the address parser
and dialer of the dial loop (lines 89-92). -/
structure MainEnv where
  noiseSign : Except String Unit
  dnsConfig : Except String Unit
  listenOn : Except String Unit
  parseAddr : String → Option Multiaddr
  dialPeer : Multiaddr → Except String Unit

/-- The control flow of `main` from startup to the event loop
(relay_v2.rs lines 40-94), in the source's order of effects. -/
def mainSetup (env : MainEnv) (dial : List String) : SetupOutcome :=
  match env.noiseSign with
  | Except.error _ =>
      SetupOutcome.panicked "Signing libp2p-noise static DH keypair failed."
  | Except.ok _ =>
  match env.dnsConfig with
  | Except.error e => SetupOutcome.errReturn e
  | Except.ok _ =>
  match env.listenOn with
  | Except.error e => SetupOutcome.errReturn e
  | Except.ok _ => dialLoop env.parseAddr env.dialPeer dial

/-- One iteration of the event loop (relay_v2.rs lines 95-105): the body never
breaks or returns, so the only exits are the `expect("Infinite Stream.")`
panic when the swarm stream ends, and `exitOk` — present in the type because
`main` returns `Result<(), _>` — is never produced. -/
inductive LoopStep where
  | continueWith : LogAction → LoopStep
  | exitPanic : String → LoopStep
  | exitOk : LoopStep
deriving DecidableEq, Repr

/-- One turn of `loop { match swarm.next().await.expect("Infinite Stream.") }`. -/
def loopStep : Option SwarmEvent → LoopStep
  | none => LoopStep.exitPanic "Infinite Stream."
  | some e => LoopStep.continueWith (handleSwarmEvent e)

/-- The first exit the event loop takes within `n` iterations when the swarm
yields the given stream of events; `none` when all `n` iterations continue. -/
def firstLoopExit (events : Nat → Option SwarmEvent) : Nat → Option LoopStep
  | 0 => none
  | n + 1 =>
    match loopStep (events 0) with
    | LoopStep.continueWith _ => firstLoopExit (fun i => events (i + 1)) n
    | s => some s

/-- C4: when binding the listen address fails, `main` returns that error (a
visible failure); and the event loop never exits with `Ok` — as long as the
swarm stream keeps yielding events it never exits at all, and the only way it
can stop is the "Infinite Stream." panic, never a normal return. -/
theorem main_listen_error_fatal_and_loop_never_ok :
    (∀ (env : MainEnv) (dial : List String) (e : String),
      env.noiseSign = Except.ok () → env.dnsConfig = Except.ok () →
      env.listenOn = Except.error e → mainSetup env dial = SetupOutcome.errReturn e) ∧
    (∀ (events : Nat → Option SwarmEvent) (n : Nat),
      firstLoopExit events n ≠ some LoopStep.exitOk) ∧
    (∀ (events : Nat → Option SwarmEvent) (n : Nat),
      (∀ i, (events i).isSome) → firstLoopExit events n = none) := by
  refine ⟨?_, ?_, ?_⟩
  · intro env dial e h₁ h₂ h₃
    simp [mainSetup, h₁, h₂, h₃]
  · intro events n
    induction n generalizing events with
    | zero => simp [firstLoopExit]
    | succ n ih =>
        cases he : events 0 with
        | none => simp [firstLoopExit, loopStep, he]
        | some e =>
            simp only [firstLoopExit, loopStep, he]
            exact ih _
  · intro events n h
    induction n generalizing events with
    | zero => rfl
    | succ n ih =>
        have h₀ := h 0
        cases he : events 0 with
        | none => rw [he] at h₀; simp at h₀
        | some e =>
            simp only [firstLoopExit, loopStep, he]
            exact ih _ (fun i => h (i + 1))

/-- A startup environment in which transport setup succeeds, every dial
attempt succeeds, but address parsing fails (the supplied dial string is not
a valid multiaddr). -/
def parseFailEnv : MainEnv :=
  ⟨Except.ok (), Except.ok (), Except.ok (), fun _ => none, fun _ => Except.ok ()⟩

/-- C5 counterexample: with transport setup succeeding, a single unparsable
address in the startup dial list makes `main` panic ("peer address to be
valid") — the process terminates instead of continuing to the event loop, so
not only transport-layer setup failures are fatal. -/
theorem dial_parse_failure_terminates_process :
    mainSetup parseFailEnv ["not-a-multiaddr"] =
      SetupOutcome.panicked "peer address to be valid" ∧
    SetupOutcome.panicked "peer address to be valid" ≠ SetupOutcome.entersEventLoop :=
  ⟨rfl, fun h => SetupOutcome.noConfusion h⟩

/-- C5 (amended): transport-layer setup failures at startup (listen bind)
are fatal, and additionally every entry of the startup dial list that fails
to parse or fails to dial is fatal too — each terminates the process by
panic — while a dial list whose entries all parse and dial successfully
falls through into the event loop. -/
theorem startup_dial_failures_also_fatal :
    (∀ (p : String → Option Multiaddr) (d : Multiaddr → Except String Unit)
        (a : String) (rest : List String), p a = none →
      dialLoop p d (a :: rest) = SetupOutcome.panicked "peer address to be valid") ∧
    (∀ (p : String → Option Multiaddr) (d : Multiaddr → Except String Unit)
        (a : String) (m : Multiaddr) (e : String) (rest : List String),
      p a = some m → d m = Except.error e →
      dialLoop p d (a :: rest) = SetupOutcome.panicked "to dial peer") ∧
    (∀ (p : String → Option Multiaddr) (d : Multiaddr → Except String Unit)
        (addrs : List String),
      (∀ a ∈ addrs, ∃ m, p a = some m ∧ d m = Except.ok ()) →
      dialLoop p d addrs = SetupOutcome.entersEventLoop) ∧
    (∀ (env : MainEnv) (dial : List String) (e : String),
      env.noiseSign = Except.ok () → env.dnsConfig = Except.ok () →
      env.listenOn = Except.error e → mainSetup env dial = SetupOutcome.errReturn e) := by
  refine ⟨?_, ?_, ?_, ?_⟩
  · intro p d a rest h
    simp [dialLoop, h]
  · intro p d a m e rest hp hd
    simp [dialLoop, hp, hd]
  · intro p d addrs h
    induction addrs with
    | nil => rfl
    | cons a rest ih =>
        obtain ⟨m, hm, hd⟩ := h a (List.mem_cons_self a rest)
        simp only [dialLoop, hm, hd]
        exact ih (fun b hb => h b (List.mem_cons_of_mem a hb))
  · intro env dial e h₁ h₂ h₃
    simp [mainSetup, h₁, h₂, h₃]

/-! ## Relay Circuit Coordinator (reservation / circuit tables)

The relay behaviour implementation (`libp2p::relay::v2::relay::Relay`) is not
among the repository files here — the example only instantiates it — so the
coordinator below is modelled from the spec (sections 3, 4.1 and 5).
-/

/-- Modelled from the spec: a PeerIdentity for the coordinator's tables, an
opaque identifier comparable for equality. -/
abbrev PeerIdentity := Nat

/-- Reservation status per spec section 3. -/
inductive ReservationStatus where
  | Pending
  | Active
  | Expired
  | Denied
deriving DecidableEq, Repr

/-- Modelled from the spec: a Reservation relates a reserving PeerIdentity to
this relay, with a status and an expiry timestamp. -/
structure Reservation where
  peer : PeerIdentity
  status : ReservationStatus
  expiry : Nat
deriving DecidableEq, Repr

/-- Circuit status per spec section 3. -/
inductive CircuitStatus where
  | Requested
  | Establishing
  | Active
  | Closed
  | Denied
  | TimedOut
deriving DecidableEq, Repr

/-- Modelled from the spec: a Circuit relates a requesting source
PeerIdentity to a reserved destination PeerIdentity through this relay. -/
structure Circuit where
  src : PeerIdentity
  dst : PeerIdentity
  status : CircuitStatus
  deadline : Nat
deriving DecidableEq, Repr

/-- Modelled from the spec: the externally supplied policy parameters of
section 4.1 (max concurrent reservations, max durations). -/
structure RelayPolicy where
  maxReservations : Nat
  maxReservationDuration : Nat
  maxCircuitDuration : Nat
deriving DecidableEq, Repr

/-- The coordinator's reservation and circuit tables. -/
structure RelayState where
  reservations : List Reservation
  circuits : List Circuit
deriving DecidableEq, Repr

/-- The coordinator's starting state: empty tables. -/
def RelayState.init : RelayState := ⟨[], []⟩

/-- Reservation denial reasons per spec section 4.1. -/
inductive ReserveDenyReason where
  | ResourceLimitExceeded
  | PermissionDenied
deriving DecidableEq, Repr

/-- `ReserveResponse` per spec section 6 (wire messages). -/
inductive ReserveResponse where
  | Accepted : Nat → ReserveResponse
  | Denied : ReserveDenyReason → ReserveResponse
deriving DecidableEq, Repr

/-- Circuit denial reasons per spec section 4.1. -/
inductive ConnectDenyReason where
  | NoReservation
  | DestinationUnreachable
  | ResourceLimitExceeded
deriving DecidableEq, Repr

/-- `ConnectResponse` per spec section 6 (wire messages). -/
inductive ConnectResponse where
  | Accepted
  | Denied : ConnectDenyReason → ConnectResponse
deriving DecidableEq, Repr

/-- The reservations currently Active. -/
def activeReservations (st : RelayState) : List Reservation :=
  st.reservations.filter (fun r => r.status == ReservationStatus.Active)

/-- Whether a peer currently holds an Active reservation. -/
def hasActiveReservation (st : RelayState) (p : PeerIdentity) : Bool :=
  st.reservations.any (fun r => r.peer == p && r.status == ReservationStatus.Active)

/-- Modelled from the spec: `HandleReservationRequest(requesterId,
requestedDuration)` (section 4.1) — creates/refreshes a Reservation with
expiry = now + min(requestedDuration, policy max); a request from a peer
that already holds an Active reservation refreshes (replaces) it; a new
request over capacity is Denied(ResourceLimitExceeded). -/
def handleReservationRequest (policy : RelayPolicy)
    (now requesterId requestedDuration : Nat) (st : RelayState) :
    RelayState × ReserveResponse :=
  let negotiated := min requestedDuration policy.maxReservationDuration
  if hasActiveReservation st requesterId then
    ({ st with reservations :=
        ⟨requesterId, ReservationStatus.Active, now + negotiated⟩ ::
          st.reservations.filter (fun r => r.peer != requesterId) },
      ReserveResponse.Accepted (now + negotiated))
  else if (activeReservations st).length < policy.maxReservations then
    ({ st with reservations :=
        ⟨requesterId, ReservationStatus.Active, now + negotiated⟩ ::
          st.reservations.filter (fun r => r.peer != requesterId) },
      ReserveResponse.Accepted (now + negotiated))
  else
    (st, ReserveResponse.Denied ReserveDenyReason.ResourceLimitExceeded)

/-- Modelled from the spec: `HandleCircuitRequest(requesterId,
destinationId)` (section 4.1) — requires an Active Reservation for
destinationId; on success a new Circuit transitions to Establishing;
otherwise Denied(NoReservation) with the state unchanged. -/
def handleCircuitRequest (policy : RelayPolicy) (now : Nat) (st : RelayState)
    (requesterId destinationId : PeerIdentity) : RelayState × ConnectResponse :=
  if hasActiveReservation st destinationId then
    ({ st with circuits :=
        ⟨requesterId, destinationId, CircuitStatus.Establishing,
          now + policy.maxCircuitDuration⟩ :: st.circuits },
      ConnectResponse.Accepted)
  else
    (st, ConnectResponse.Denied ConnectDenyReason.NoReservation)

/-- Expiry of one reservation on a tick: an Active reservation whose timer
has elapsed becomes Expired. -/
def expireReservation (now : Nat) (r : Reservation) : Reservation :=
  if r.status = ReservationStatus.Active ∧ r.expiry ≤ now then
    { r with status := ReservationStatus.Expired }
  else r

/-- Timeout of one circuit on a tick: an Establishing/Active circuit whose
timer has elapsed becomes TimedOut. -/
def timeoutCircuit (now : Nat) (c : Circuit) : Circuit :=
  if (c.status = CircuitStatus.Establishing ∨ c.status = CircuitStatus.Active) ∧
      c.deadline ≤ now then
    { c with status := CircuitStatus.TimedOut }
  else c

/-- Modelled from the spec: `Tick()` (section 4.1) — expires Reservations and
Circuits whose timers have elapsed. -/
def coordinatorTick (now : Nat) (st : RelayState) : RelayState :=
  { reservations := st.reservations.map (expireReservation now),
    circuits := st.circuits.map (timeoutCircuit now) }

/-- Modelled from the spec: connection loss (sections 3 and 5) — closing the
owning Connection transitions the peer's Active reservation to Expired and
closes the circuits bound to it. -/
def connectionClosed (p : PeerIdentity) (st : RelayState) : RelayState :=
  { reservations := st.reservations.map (fun r =>
      if r.peer = p ∧ r.status = ReservationStatus.Active then
        { r with status := ReservationStatus.Expired }
      else r),
    circuits := st.circuits.map (fun c =>
      if (c.src = p ∨ c.dst = p) ∧
          (c.status = CircuitStatus.Establishing ∨ c.status = CircuitStatus.Active) then
        { c with status := CircuitStatus.Closed }
      else c) }

/-- The states of the coordinator reachable from the empty tables through its
operations. -/
inductive Reachable (policy : RelayPolicy) : RelayState → Prop where
  | init : Reachable policy RelayState.init
  | stepReserve (now requesterId dur : Nat) {st : RelayState} :
      Reachable policy st →
      Reachable policy (handleReservationRequest policy now requesterId dur st).1
  | stepCircuit (now : Nat) (requesterId destinationId : PeerIdentity)
      {st : RelayState} :
      Reachable policy st →
      Reachable policy (handleCircuitRequest policy now st requesterId destinationId).1
  | stepTick (now : Nat) {st : RelayState} :
      Reachable policy st → Reachable policy (coordinatorTick now st)
  | stepClose (p : PeerIdentity) {st : RelayState} :
      Reachable policy st → Reachable policy (connectionClosed p st)

/-- No two simultaneously Active reservations share a peer. -/
def NoTwoActive (st : RelayState) : Prop :=
  ((activeReservations st).map Reservation.peer).Nodup

/-- Auxiliary invariant: all table entries (any status) have distinct peers. -/
def ReservationPeersNodup (st : RelayState) : Prop :=
  (st.reservations.map Reservation.peer).Nodup

lemma nodup_insert_reservation (q : PeerIdentity) (s : ReservationStatus) (e : Nat)
    (rs : List Reservation) (h : (rs.map Reservation.peer).Nodup) :
    (((⟨q, s, e⟩ : Reservation) :: rs.filter (fun r => r.peer != q)).map
      Reservation.peer).Nodup := by
  rw [List.map_cons]
  refine List.nodup_cons.mpr ⟨?_, ?_⟩
  · intro hmem
    obtain ⟨r, hr, heq⟩ := List.mem_map.mp hmem
    obtain ⟨_, hpr⟩ := List.mem_filter.mp hr
    exact (bne_iff_ne ..).mp hpr heq
  · exact List.Nodup.sublist (List.Sublist.map _ (List.filter_sublist _)) h

lemma map_peer_of_peer_preserving (f : Reservation → Reservation)
    (hf : ∀ r, (f r).peer = r.peer) (rs : List Reservation) :
    (rs.map f).map Reservation.peer = rs.map Reservation.peer := by
  induction rs with
  | nil => rfl
  | cons r rs ih => simp [hf, ih]

lemma handleReservationRequest_reservations (policy : RelayPolicy)
    (now q dur : Nat) (st : RelayState) :
    (handleReservationRequest policy now q dur st).1.reservations = st.reservations ∨
    (handleReservationRequest policy now q dur st).1.reservations =
      (⟨q, ReservationStatus.Active, now + min dur policy.maxReservationDuration⟩ :
        Reservation) :: st.reservations.filter (fun r => r.peer != q) := by
  simp only [handleReservationRequest]
  split
  · right; rfl
  · split
    · right; rfl
    · left; rfl

lemma handleCircuitRequest_reservations (policy : RelayPolicy) (now : Nat)
    (st : RelayState) (a b : PeerIdentity) :
    (handleCircuitRequest policy now st a b).1.reservations = st.reservations := by
  simp only [handleCircuitRequest]
  split <;> rfl

lemma expireReservation_peer (now : Nat) (r : Reservation) :
    (expireReservation now r).peer = r.peer := by
  unfold expireReservation
  split <;> rfl

lemma reachable_peers_nodup {policy : RelayPolicy} {st : RelayState}
    (h : Reachable policy st) : ReservationPeersNodup st := by
  induction h with
  | init => exact List.nodup_nil
  | stepReserve now q dur _ ih =>
      rcases handleReservationRequest_reservations policy now q dur _ with heq | heq
      · unfold ReservationPeersNodup
        rw [heq]
        exact ih
      · unfold ReservationPeersNodup
        rw [heq]
        exact nodup_insert_reservation q _ _ _ ih
  | stepCircuit now a b _ ih =>
      unfold ReservationPeersNodup
      rw [handleCircuitRequest_reservations]
      exact ih
  | stepTick now _ ih =>
      unfold ReservationPeersNodup coordinatorTick
      dsimp only
      rw [map_peer_of_peer_preserving _ (expireReservation_peer now)]
      exact ih
  | stepClose p _ ih =>
      unfold ReservationPeersNodup connectionClosed
      dsimp only
      rw [map_peer_of_peer_preserving _ (fun r => by split <;> rfl)]
      exact ih

/-- C8: in every reachable state of the relay's reservation table, no two
simultaneously Active reservations exist for the same PeerIdentity — a new
reservation request from a peer holding an Active reservation refreshes
(replaces) it or is denied, never creating a second Active one. -/
theorem no_two_active_reservations_per_peer (policy : RelayPolicy)
    (st : RelayState) (h : Reachable policy st) : NoTwoActive st := by
  have hn : ReservationPeersNodup st := reachable_peers_nodup h
  unfold NoTwoActive activeReservations
  exact List.Nodup.sublist (List.Sublist.map _ (List.filter_sublist _)) hn

/-- Witness for C8: the invariant at the concrete state reached by one
accepted reservation request on the empty relay. -/
theorem no_two_active_reservations_per_peer_witness :
    NoTwoActive (handleReservationRequest ⟨8, 3600, 3600⟩ 0 1 100 RelayState.init).1 :=
  no_two_active_reservations_per_peer ⟨8, 3600, 3600⟩ _
    (Reachable.stepReserve 0 1 100 Reachable.init)

/-- C9: a circuit request whose destination holds no Active reservation is
answered Denied(NoReservation), no circuit is created, and the whole state —
in particular the circuit table — is unchanged. -/
theorem circuit_request_no_reservation_denied (policy : RelayPolicy) (now : Nat)
    (st : RelayState) (requesterId destinationId : PeerIdentity)
    (h : hasActiveReservation st destinationId = false) :
    handleCircuitRequest policy now st requesterId destinationId =
      (st, ConnectResponse.Denied ConnectDenyReason.NoReservation) ∧
    (handleCircuitRequest policy now st requesterId destinationId).1.circuits =
      st.circuits := by
  refine ⟨?_, ?_⟩ <;> simp [handleCircuitRequest, h]

/-- Witness for C9 on the empty relay: peer 2 has no reservation, so peer 1's
circuit request to it is denied and the circuit table stays empty. -/
theorem circuit_request_no_reservation_denied_witness :
    handleCircuitRequest ⟨8, 3600, 3600⟩ 0 RelayState.init 1 2 =
      (RelayState.init, ConnectResponse.Denied ConnectDenyReason.NoReservation) ∧
    (handleCircuitRequest ⟨8, 3600, 3600⟩ 0 RelayState.init 1 2).1.circuits =
      RelayState.init.circuits :=
  circuit_request_no_reservation_denied ⟨8, 3600, 3600⟩ 0 RelayState.init 1 2 rfl
